import Mathlib

/-
Verification development for the LinkedIn profile-PDF scraper
(src/scraper.js, 385 lines).  The JavaScript source is shallowly embedded:
strings are lists of characters, the filesystem and the browser driver are
explicit environment records, promise rejections are `Except`, and the
orchestration functions are translated statement by statement.  Line numbers
in the doc comments refer to src/scraper.js.
-/

namespace Scraper

/-- JavaScript strings are modelled as lists of characters. -/
abbrev JsString := List Char

/-- Models `String.prototype.trim`: strips leading and trailing whitespace. -/
def jsTrim (l : JsString) : JsString :=
  ((l.dropWhile Char.isWhitespace).reverse.dropWhile Char.isWhitespace).reverse

/-- Models `String.prototype.endsWith`. -/
def jsEndsWith (s suffix : JsString) : Bool := decide (suffix <:+ s)

/-! ### extractProfileId (lines 151-165)

`extractProfileId(url)` runs `url.match(/\/in\/([^\/\?]+)/)` and, when the
match succeeds, returns the first capture group with a trailing slash
removed; otherwise it returns `null`.  The body is wrapped in a `try/catch`
that also returns `null`, so the function never throws; the embedding is a
total function into `Option`. -/

/-- A character matches the regex class `[^\/\?]`. -/
def isSegChar (c : Char) : Bool := c != '/' && c != '?'

/-- Whether the pattern `\/in\/([^\/\?]+)` matches at the start of the list;
if so, returns the (greedy) capture group. -/
def extractHere : JsString → Option JsString
  | '/' :: 'i' :: 'n' :: '/' :: d :: tail =>
    if isSegChar d then some (d :: tail.takeWhile isSegChar) else none
  | _ => none

/-- Leftmost-match regex search: try the pattern at each position from the
left, as the JavaScript regex engine does. -/
def findSegment : JsString → Option JsString
  | [] => none
  | c :: rest =>
    match extractHere (c :: rest) with
    | some seg => some seg
    | none => findSegment rest

/-- Models `.replace(/\/$/, '')`: removes one trailing slash if present. -/
def dropTrailingSlash (s : JsString) : JsString :=
  if s.getLast? = some '/' then s.dropLast else s

/-- `extractProfileId` (lines 151-165). -/
def extractProfileId (url : JsString) : Option JsString :=
  match findSegment url with
  | some seg => some (dropTrailingSlash seg)
  | none => none

/-! ### Download directory model and waitForDownload (lines 168-199) -/

/-- A directory entry: file name and modification time (`mtime`, ms). -/
structure FileEntry where
  name : JsString
  mtime : Nat
deriving DecidableEq

/-- The filter of lines 176-178 and 207: keep files whose name ends with
`.pdf` and does not end with `.crdownload`. -/
def qualifies (f : FileEntry) : Bool :=
  jsEndsWith f.name (".pdf").data && !(jsEndsWith f.name (".crdownload").data)

/-- The comparator `(a, b) => b.time - a.time` of lines 188 and 223 sorts
descending by modification time. -/
def newerFirst (a b : FileEntry) : Bool := decide (b.mtime ≤ a.mtime)

/-- Lines 176-189 and 207-224: filter the qualifying PDFs, sort them most
recent first, and take the first one. -/
def mostRecent (files : List FileEntry) : Option FileEntry :=
  ((files.filter qualifies).mergeSort newerFirst).head?

/-- The polling loop of `waitForDownload` (lines 171-196), with the number
of remaining polls made explicit: the JavaScript loop scans, and sleeps
500 ms between scans, while the elapsed time `t` is below the timeout, so
the scans happen at `t = 0, 500, 1000, ...` with `t < timeout`. -/
def waitForDownloadLoop (snapshot : Nat → List FileEntry) : Nat → Nat → Option JsString
  | 0, _ => none
  | k + 1, t =>
    match mostRecent (snapshot t) with
    | some f => some f.name
    | none => waitForDownloadLoop snapshot k (t + 500)

/-- Number of elapsed times `t ∈ {0, 500, 1000, ...}` with `t < timeout`. -/
def pollCount (timeout : Nat) : Nat := (timeout + 499) / 500

/-- `waitForDownload(downloadPath, timeout)` (lines 168-199): the directory
contents at elapsed time `t` are `snapshot t`.  Returns the most recent
qualifying PDF name of the first scan that finds one, or `none` once the
timeout elapses (line 198). -/
def waitForDownload (snapshot : Nat → List FileEntry) (timeout : Nat) : Option JsString :=
  waitForDownloadLoop snapshot (pollCount timeout) 0

/-! ### renameDownloadedPdf (lines 202-250) -/

/-- `fs.rename(old, new)` on a directory listing: the entry at the old name
moves to the new name; an existing entry at the new name is overwritten
(removed).  Renaming a file to its own name is a no-op. -/
def renameFile (files : List FileEntry) (oldName newName : JsString) : List FileEntry :=
  if oldName = newName then files
  else
    (files.filter (fun f => f.name ≠ newName)).map
      (fun f => if f.name = oldName then { f with name := newName } else f)

/-- The collision name `` `${profileId}_${timestamp}.pdf` `` of line 235. -/
def tsName (profileId : JsString) (now : Nat) : JsString :=
  profileId ++ ('_' :: (toString now).data) ++ (".pdf").data

/-- `renameDownloadedPdf(profileId, downloadFolder)` (lines 202-250).
`files` is the directory listing read at line 204 and `now` is `Date.now()`
(line 234).  Returns the boolean result together with the directory listing
after the rename.  Lines 209-212: no qualifying PDF means `false`.
Lines 230-238: if `<profileId>.pdf` already exists (`fs.access` succeeds),
the most recent PDF is renamed to the timestamp-suffixed name; otherwise
(lines 239-244) it is renamed to `<profileId>.pdf`. -/
def renameDownloadedPdf (profileId : JsString) (files : List FileEntry) (now : Nat) :
    Bool × List FileEntry :=
  match mostRecent files with
  | none => (false, files)
  | some recent =>
    let newFileName := profileId ++ (".pdf").data
    if files.any (fun f => decide (f.name = newFileName)) then
      (true, renameFile files recent.name (tsName profileId now))
    else
      (true, renameFile files recent.name newFileName)

/-! ### getProfileURLs (lines 341-351)

`urlsData.trim().split(/[\n,]+/).map(url => url.trim()).filter(url => url)`:
the file content is trimmed, split on maximal runs of newlines and commas,
each piece is trimmed, and empty pieces are dropped.  A read error is caught
and yields an empty list (lines 347-350). -/

/-- A character matched by the regex class `[\n,]`. -/
def isDelim (c : Char) : Bool := c == '\n' || c == ','

/-- Worker for `split(/[\n,]+/)`: accumulates the current piece (reversed);
`prevDelim` records whether the previous character belonged to a delimiter
run, so that a run of delimiters produces a single split point. -/
def splitRunsGo (cur : JsString) (prevDelim : Bool) : JsString → List JsString
  | [] => [cur.reverse]
  | c :: rest =>
    if isDelim c then
      if prevDelim then splitRunsGo cur true rest
      else cur.reverse :: splitRunsGo [] true rest
    else splitRunsGo (c :: cur) false rest

/-- Models `s.split(/[\n,]+/)` (JavaScript semantics: `"".split` gives
`[""]`, leading/trailing delimiter runs give empty pieces). -/
def splitRuns (l : JsString) : List JsString := splitRunsGo [] false l

/-- `getProfileURLs()` (lines 341-351); `fileContent` is the result of
reading `profiles.csv` (`none` models a rejected `fs.readFile`). -/
def getProfileURLs (fileContent : Option JsString) : List JsString :=
  match fileContent with
  | none => []
  | some s => ((splitRuns (jsTrim s)).map jsTrim).filter (fun u => !u.isEmpty)

/-! ### proccessProfiles (lines 252-339)

Each loop iteration interacts with the browser driver and the download
directory; those external effects are collected in a per-target environment
record.  A thrown/rejected driver operation is modelled as `Except.error`. -/

/-- The per-target conceptual outcome (spec section 3, "Pipeline Run
Record"). -/
inductive Outcome where
  | exported
  | skippedUnresolvable
  | skippedNoActionElement
  | failedTrigger
  | failedDownloadTimeout
deriving DecidableEq

/-- An opaque JavaScript exception value. -/
inductive JsError where
  | error
deriving DecidableEq

/-- External behaviour observed while processing one target.
Fields map to the driver/filesystem calls of lines 268-332. -/
structure TargetEnv where
  /-- `driver.get(url)` (line 269) resolves. -/
  navOk : Bool
  /-- `driver.findElements(overflow)` (lines 273-275): `none` models a
  rejection, `some n` a list of `n` elements. -/
  overflowCount : Option Nat
  /-- `secondOverflowAction.click()` (line 286) resolves. -/
  moreClickOk : Bool
  /-- `driver.findElement(Save to PDF)` (lines 290-292) resolves. -/
  primaryPdfFound : Bool
  /-- `driver.executeScript(click)` (line 295) resolves. -/
  primaryClickOk : Bool
  /-- the alternative selector `findElement` (lines 319-321) resolves. -/
  fallbackPdfFound : Bool
  /-- `driver.executeScript(click)` (line 322) resolves. -/
  fallbackClickOk : Bool
  /-- download directory contents at elapsed time `t` during the primary
  path's `waitForDownload` (line 300). -/
  primarySnapshots : Nat → List FileEntry
  /-- download directory contents during the fallback path's
  `waitForDownload` (line 325). -/
  fallbackSnapshots : Nat → List FileEntry
  /-- download directory listing when `renameDownloadedPdf` runs. -/
  dirAtRename : List FileEntry
  /-- `Date.now()` when `renameDownloadedPdf` runs. -/
  now : Nat

/-- Lines 284-333: the inner `try` (click the More button, locate and
script-click the PDF menu item, wait for the download, rename), whose
`catch` runs the alternative selector (lines 318-329), whose own `catch`
(lines 330-332) only logs.  No exception escapes this region, so it is a
total function.  The result of `renameDownloadedPdf` is discarded by the
caller (lines 309, 328), exactly as in the source. -/
def triggerAndResolve (profileId : JsString) (env : TargetEnv) : Outcome :=
  if env.moreClickOk && env.primaryPdfFound && env.primaryClickOk then
    match waitForDownload env.primarySnapshots 30000 with
    | some _ =>
      let _ := renameDownloadedPdf profileId env.dirAtRename env.now
      Outcome.exported
    | none => Outcome.failedDownloadTimeout
  else
    if env.fallbackPdfFound && env.fallbackClickOk then
      match waitForDownload env.fallbackSnapshots 30000 with
      | some _ =>
        let _ := renameDownloadedPdf profileId env.dirAtRename env.now
        Outcome.exported
      | none => Outcome.failedDownloadTimeout
    else Outcome.failedTrigger

/-- The body of the outer `try` of one loop iteration (lines 268-333):
navigation and the overflow-element lookup may throw (propagating as
`Except.error`); `overflowActions[1] ?? null` being null (fewer than two
elements, lines 276-281) skips the target. -/
def targetBody (profileId : JsString) (env : TargetEnv) : Except JsError Outcome :=
  if !env.navOk then Except.error JsError.error
  else
    match env.overflowCount with
    | none => Except.error JsError.error
    | some n =>
      if n < 2 then Except.ok Outcome.skippedNoActionElement
      else Except.ok (triggerAndResolve profileId env)

/-- One loop iteration after identifier extraction: the outer `catch`
(lines 335-337) absorbs any exception and only logs, so the iteration
always produces an outcome. -/
def processTarget (profileId : JsString) (env : TargetEnv) : Outcome :=
  match targetBody profileId env with
  | Except.ok o => o
  | Except.error _ => Outcome.failedTrigger

/-- The `for` loop of `proccessProfiles` (lines 255-338): index `i` selects
the per-target environment; blank lines are skipped without an outcome
(lines 256-257), unresolvable URLs are recorded as `skippedUnresolvable`
(lines 259-263). -/
def processProfilesGo (envs : Nat → TargetEnv) : List JsString → Nat → List Outcome
  | [], _ => []
  | u :: rest, i =>
    let url := jsTrim u
    if url = [] then processProfilesGo envs rest (i + 1)
    else
      match extractProfileId url with
      | none => Outcome.skippedUnresolvable :: processProfilesGo envs rest (i + 1)
      | some pid => processTarget pid (envs i) :: processProfilesGo envs rest (i + 1)

/-- `proccessProfiles(driver)` (lines 252-339), applied to an already-read
URL list (line 253). -/
def proccessProfiles (urls : List JsString) (envs : Nat → TargetEnv) : List Outcome :=
  processProfilesGo envs urls 0

/-! ### Authenticator (lines 42-144) and main (lines 353-383) -/

/-- Failure modes of reading the cookie store: the file is absent
(`fs.readFile` rejects, line 92) or its contents do not parse
(`JSON.parse` throws, line 93). -/
inductive LoadError where
  | notFound
  | corrupt
deriving DecidableEq

/-- A persisted session cookie. -/
structure Cookie where
  name : JsString
  value : JsString
deriving DecidableEq

/-- Environment of one whole run. -/
structure RunEnv where
  /-- `process.env.LINKEDIN_EMAIL` (line 7); `none` is `undefined`. -/
  email : Option JsString
  /-- `process.env.LINKEDIN_PASSWORD` (line 8). -/
  password : Option JsString
  /-- Result of reading and parsing `cookies.json` (lines 92-93). -/
  cookieStore : Except LoadError (List Cookie)
  /-- After the cookie restore, the login form's username element appears
  within the 10 s wait (lines 122-125), i.e. the session is not live. -/
  loginFormPresent : Bool
  /-- On the login page, the username/password elements are located within
  the bounded wait (lines 48-55). -/
  loginElementsFound : Bool
  /-- After submitting credentials, the URL reaches a post-login
  destination within 15 s (lines 63-67). -/
  loginReachesFeed : Bool
  /-- `getDriver()` (lines 14-40) returns a driver rather than null. -/
  driverOk : Bool
  /-- Contents of `profiles.csv` (`none`: the read rejects). -/
  fileContent : Option JsString
  /-- Per-target external behaviour, by loop index. -/
  targetEnvs : Nat → TargetEnv

/-- `loadCookies(driver)` (lines 90-112): reads and parses `cookies.json`;
individual `addCookie` failures are caught and skipped (lines 98-102) and
do not affect the result; a read or parse failure is logged and rethrown
(line 110). -/
def loadCookies (env : RunEnv) : Except LoadError Unit :=
  match env.cookieStore with
  | Except.error e => Except.error e
  | Except.ok _ => Except.ok ()

/-- `loginToLinkedIn(driver)` (lines 42-88): every failure inside the `try`
(element wait timeout, `sendKeys` on an undefined credential, post-login
URL wait timeout) is caught and yields `false` (lines 84-87); on success
the cookies are captured and persisted and the result is `true`. -/
def loginToLinkedIn (env : RunEnv) : Bool :=
  if !env.loginElementsFound then false
  else if env.email.isNone || env.password.isNone then false
  else if !env.loginReachesFeed then false
  else true

/-- Result of `loginWithSavedCookies`: the returned value (`none` models
the implicit `undefined` of the catch path, lines 141-143) and whether the
interactive credential login was ever attempted (line 132). -/
structure AuthResult where
  result : Option Bool
  credentialLoginAttempted : Bool
deriving DecidableEq

/-- `loginWithSavedCookies(driver)` (lines 114-144): if `loadCookies`
throws, the outer `catch` logs and the function returns `undefined`; if the
login form is present after the restore, `loginToLinkedIn` is attempted
(lines 130-137); otherwise the restored session is accepted (line 139). -/
def loginWithSavedCookies (env : RunEnv) : AuthResult :=
  match loadCookies env with
  | Except.error _ => { result := none, credentialLoginAttempted := false }
  | Except.ok _ =>
    if env.loginFormPresent then
      if loginToLinkedIn env then
        { result := some true, credentialLoginAttempted := true }
      else
        { result := some false, credentialLoginAttempted := true }
    else { result := some true, credentialLoginAttempted := false }

/-- Observable result of one `main()` execution. -/
structure MainResult where
  /-- a browser session was created (`getDriver` succeeded). -/
  browserCreated : Bool
  /-- `loginToLinkedIn` was invoked at some point. -/
  credentialLoginAttempted : Bool
  /-- `some outcomes` if `proccessProfiles` ran; `none` if the run aborted
  beforehand. -/
  outcomes : Option (List Outcome)
  /-- `driver.quit()` was invoked (line 372 or line 382). -/
  quitCalled : Bool
deriving DecidableEq

/-- `main()` (lines 353-383): create the download folder (idempotent, no
observable state here), create the driver (abort if null, lines 363-366),
authenticate (on a non-true result: log, quit, return, lines 369-374),
otherwise process all profiles and quit (lines 377-382). -/
def main (env : RunEnv) : MainResult :=
  if !env.driverOk then
    { browserCreated := false, credentialLoginAttempted := false,
      outcomes := none, quitCalled := false }
  else
    let auth := loginWithSavedCookies env
    if auth.result = some true then
      { browserCreated := true,
        credentialLoginAttempted := auth.credentialLoginAttempted,
        outcomes := some (proccessProfiles (getProfileURLs env.fileContent) env.targetEnvs),
        quitCalled := true }
    else
      { browserCreated := true,
        credentialLoginAttempted := auth.credentialLoginAttempted,
        outcomes := none, quitCalled := true }

/-! ## Concrete demonstration inputs -/

/-- A download directory with two finished PDFs and one in-progress
download. -/
def demoDir : List FileEntry :=
  [{ name := ("old.pdf").data, mtime := 1 },
   { name := ("Profile.pdf").data, mtime := 9 },
   { name := ("part.crdownload").data, mtime := 20 }]

/-- A download directory in which the destination name `jane.pdf` already
exists while a newer `Profile.pdf` waits to be claimed. -/
def demoCollisionDir : List FileEntry :=
  [{ name := ("jane.pdf").data, mtime := 3 },
   { name := ("Profile.pdf").data, mtime := 7 }]

/-- A target whose page shows no second overflow action. -/
def demoSkipEnv : TargetEnv :=
  { navOk := true, overflowCount := some 0, moreClickOk := true,
    primaryPdfFound := true, primaryClickOk := true,
    fallbackPdfFound := true, fallbackClickOk := true,
    primarySnapshots := fun _ => [], fallbackSnapshots := fun _ => [],
    dirAtRename := [], now := 0 }

/-- A target whose navigation rejects, raising inside the loop body. -/
def demoBadEnv : TargetEnv :=
  { demoSkipEnv with navOk := false }

/-- A target whose trigger succeeds but whose download never appears. -/
def demoTimeoutEnv : TargetEnv :=
  { demoSkipEnv with overflowCount := some 2 }

/-- A three-line target list: a well-formed URL, a blank line, and a
malformed URL. -/
def demoUrls : List JsString :=
  [("https://www.linkedin.com/in/jane/").data, [], ("nourl").data]

/-- Per-index environments for `demoUrls`. -/
def demoEnvs : Nat → TargetEnv := fun _ => demoSkipEnv

/-- A run with both credentials absent from the process environment but a
live persisted session. -/
def demoNoCredEnv : RunEnv :=
  { email := none, password := none, cookieStore := Except.ok [],
    loginFormPresent := false, loginElementsFound := true,
    loginReachesFeed := true, driverOk := true,
    fileContent := some (("https://www.linkedin.com/in/jane/").data),
    targetEnvs := fun _ => demoSkipEnv }

/-- A first run: the cookie store file does not exist. -/
def demoAbsentStoreEnv : RunEnv :=
  { demoNoCredEnv with cookieStore := Except.error LoadError.notFound }

/-- A run whose target-list file is empty. -/
def demoEmptyInputEnv : RunEnv :=
  { demoNoCredEnv with fileContent := some [] }

/-! ## Helper lemmas -/

theorem takeWhile_all_append (p : Char → Bool) (l₁ l₂ : List Char)
    (h : ∀ a ∈ l₁, p a = true) :
    (l₁ ++ l₂).takeWhile p = l₁ ++ l₂.takeWhile p := by
  induction l₁ with
  | nil => rfl
  | cons a l ih =>
    have ha : p a = true := h a (List.mem_cons_self a l)
    simp only [List.cons_append, List.takeWhile_cons, ha, if_true]
    rw [ih (fun b hb => h b (List.mem_cons_of_mem a hb))]

theorem findSegment_cons_none (c : Char) (l : JsString)
    (h : extractHere (c :: l) = none) : findSegment (c :: l) = findSegment l := by
  simp [findSegment, h]

theorem findSegment_skip (p rest : JsString)
    (h : ∀ i < p.length, extractHere ((p ++ rest).drop i) = none) :
    findSegment (p ++ rest) = findSegment rest := by
  induction p with
  | nil => rfl
  | cons c p ih =>
    have h0 : extractHere (c :: (p ++ rest)) = none := by
      have := h 0 (Nat.succ_pos _)
      simpa using this
    rw [List.cons_append, findSegment_cons_none c (p ++ rest) h0]
    refine ih (fun i hi => ?_)
    have := h (i + 1) (by simpa using Nat.succ_lt_succ hi)
    simpa using this

theorem newerFirst_trans (a b c : FileEntry) (hab : newerFirst a b = true)
    (hbc : newerFirst b c = true) : newerFirst a c = true := by
  simp only [newerFirst, decide_eq_true_eq] at *
  omega

theorem newerFirst_total (a b : FileEntry) : (newerFirst a b || newerFirst b a) = true := by
  simp only [newerFirst, Bool.or_eq_true, decide_eq_true_eq]
  omega

/-- The selection shared by lines 176-189 and 207-224: among the qualifying
candidates it returns one with maximal modification time. -/
theorem mostRecent_spec (files : List FileEntry) (h : files.filter qualifies ≠ []) :
    ∃ f, mostRecent files = some f ∧ f ∈ files.filter qualifies ∧
      ∀ g ∈ files.filter qualifies, g.mtime ≤ f.mtime := by
  have hperm := List.mergeSort_perm (files.filter qualifies) newerFirst
  have hsorted := List.sorted_mergeSort newerFirst_trans newerFirst_total
    (files.filter qualifies)
  cases hms : (files.filter qualifies).mergeSort newerFirst with
  | nil =>
    rw [hms] at hperm
    exact absurd hperm.symm.eq_nil h
  | cons f rest =>
    rw [hms] at hperm hsorted
    refine ⟨f, ?_, ?_, ?_⟩
    · rw [mostRecent, hms]
      rfl
    · exact hperm.mem_iff.mp (List.mem_cons_self f rest)
    · intro g hg
      rcases List.mem_cons.mp (hperm.mem_iff.mpr hg) with rfl | hgr
      · exact le_refl _
      · have := (List.pairwise_cons.mp hsorted).1 g hgr
        simpa [newerFirst] using this

/-- Every qualifying file name in the download directory ends in `.pdf`; a
name of the form `<id>.pdf` therefore always qualifies. -/
theorem qualifies_dest (profileId : JsString) (m : Nat) :
    qualifies { name := profileId ++ (".pdf").data, mtime := m } = true := by
  have h1 : (".pdf").data <:+ profileId ++ (".pdf").data := List.suffix_append _ _
  have h2 : ¬ ((".crdownload").data <:+ profileId ++ (".pdf").data) := by
    intro hcr
    have h3 : (".pdf").data <:+ (".crdownload").data :=
      List.suffix_of_suffix_length_le h1 hcr (by decide)
    exact absurd h3 (by decide)
  simp [qualifies, jsEndsWith, h1, h2]

/-- While no qualifying PDF ever appears, the polling loop always reports
failure. -/
theorem waitLoop_none (snapshot : Nat → List FileEntry)
    (h : ∀ t, (snapshot t).filter qualifies = []) :
    ∀ k t, waitForDownloadLoop snapshot k t = none := by
  intro k
  induction k with
  | zero => intro t; rfl
  | succ k ih =>
    intro t
    have hmr : mostRecent (snapshot t) = none := by
      rw [mostRecent, h t, List.mergeSort_nil]
      rfl
    simp [waitForDownloadLoop, hmr, ih]

/-! ## Claim theorems -/

/-- C6: for every well-formed target URL containing the canonical path
segment `/in/<segment>` (the regex pattern first matches exactly at that
segment), identifier extraction is a deterministic pure function returning
exactly the segment, with the `/in/` prefix and any trailing slash
stripped. -/
theorem extractProfileId_wellFormed (p seg t url : JsString)
    (hurl : url = p ++ '/' :: 'i' :: 'n' :: '/' :: (seg ++ t))
    (hp : ∀ i < p.length, extractHere (url.drop i) = none)
    (hne : seg ≠ []) (hseg : ∀ c ∈ seg, isSegChar c = true)
    (ht : t.takeWhile isSegChar = []) :
    extractProfileId url = some seg := by
  subst hurl
  obtain ⟨d, seg', rfl⟩ : ∃ d seg', seg = d :: seg' := by
    cases seg with
    | nil => exact absurd rfl hne
    | cons d s => exact ⟨d, s, rfl⟩
  have hd : isSegChar d = true := hseg d (List.mem_cons_self d seg')
  have hseg' : ∀ c ∈ seg', isSegChar c = true :=
    fun c hc => hseg c (List.mem_cons_of_mem d hc)
  have hextract : extractHere ('/' :: 'i' :: 'n' :: '/' :: (d :: seg' ++ t)) =
      some (d :: seg') := by
    simp only [List.cons_append, extractHere, hd, if_true]
    rw [takeWhile_all_append isSegChar seg' t hseg', ht, List.append_nil]
  have hskip := findSegment_skip p ('/' :: 'i' :: 'n' :: '/' :: (d :: seg' ++ t)) hp
  have hfind : findSegment (p ++ '/' :: 'i' :: 'n' :: '/' :: (d :: seg' ++ t)) =
      some (d :: seg') := by
    rw [hskip, findSegment, hextract]
  have hnoslash : dropTrailingSlash (d :: seg') = d :: seg' := by
    rw [dropTrailingSlash]
    split
    · next hl =>
      have hmem : '/' ∈ d :: seg' := List.mem_of_mem_getLast? hl
      have := hseg '/' hmem
      simp [isSegChar] at this
    · rfl
  rw [extractProfileId, hfind]
  show some (dropTrailingSlash (d :: seg')) = some (d :: seg')
  rw [hnoslash]

/-- C6 witness: the spec's first example URL. -/
theorem extractProfileId_wellFormed_witness :
    extractProfileId ("https://service.example/in/jane-smith/".data) =
      some ("jane-smith".data) :=
  extractProfileId_wellFormed ("https://service.example".data) ("jane-smith".data)
    ("/".data) ("https://service.example/in/jane-smith/".data)
    (by decide) (by decide) (by decide) (by decide) (by decide)

/-- C7: for every malformed URL (the pattern `\/in\/([^\/\?]+)` matches at
no position), identifier extraction returns `none`; the embedding is a
total function, mirroring the `try/catch` of lines 152-164 that prevents
any exception from escaping. -/
theorem extractProfileId_malformed (url : JsString)
    (h : ∀ i < url.length, extractHere (url.drop i) = none) :
    extractProfileId url = none := by
  have hfind : findSegment url = none := by
    have := findSegment_skip url [] (by simpa using h)
    simpa using this
  rw [extractProfileId, hfind]

/-- C7 witness: a URL with no `/in/` path segment. -/
theorem extractProfileId_malformed_witness :
    extractProfileId ("https://example.com/profile".data) = none :=
  extractProfileId_malformed ("https://example.com/profile".data) (by decide)

/-- C5: for every non-empty set of qualifying candidates (name ends with
`.pdf`, no `.crdownload` marker), both `waitForDownload` and
`renameDownloadedPdf` select a candidate with the latest modification
time: the wait returns its name, and the rename moves exactly that file. -/
theorem selection_picks_latest_mtime (files : List FileEntry) (timeout : Nat)
    (pid : JsString) (now : Nat)
    (h : files.filter qualifies ≠ []) (ht : 0 < timeout) :
    ∃ f, mostRecent files = some f ∧ f ∈ files.filter qualifies ∧
      (∀ g ∈ files.filter qualifies, g.mtime ≤ f.mtime) ∧
      waitForDownload (fun _ => files) timeout = some f.name ∧
      renameDownloadedPdf pid files now =
        (true,
          if files.any (fun g => decide (g.name = pid ++ (".pdf").data)) then
            renameFile files f.name (tsName pid now)
          else renameFile files f.name (pid ++ (".pdf").data)) := by
  obtain ⟨f, hf, hmem, hmax⟩ := mostRecent_spec files h
  refine ⟨f, hf, hmem, hmax, ?_, ?_⟩
  · have hk : 1 ≤ pollCount timeout := by
      rw [pollCount, Nat.one_le_div_iff (by omega)]
      omega
    cases hpc : pollCount timeout with
    | zero => omega
    | succ k => rw [waitForDownload, hpc, waitForDownloadLoop, hf]
  · simp only [renameDownloadedPdf, hf]
    by_cases hc : (files.any fun g => decide (g.name = pid ++ (".pdf").data)) = true <;>
      simp [hc]

/-- C5 witness: three candidates, one still a `.crdownload`; the 9 ms file
is selected by both operations. -/
theorem selection_picks_latest_mtime_witness :
    ∃ f, mostRecent demoDir = some f ∧ f ∈ demoDir.filter qualifies ∧
      (∀ g ∈ demoDir.filter qualifies, g.mtime ≤ f.mtime) ∧
      waitForDownload (fun _ => demoDir) 30000 = some f.name ∧
      renameDownloadedPdf ("jane".data) demoDir 99 =
        (true,
          if demoDir.any (fun g => decide (g.name = ("jane".data) ++ (".pdf").data)) then
            renameFile demoDir f.name (tsName ("jane".data) 99)
          else renameFile demoDir f.name (("jane".data) ++ (".pdf").data)) :=
  selection_picks_latest_mtime demoDir 30000 ("jane".data) 99 (by decide) (by decide)

/-- C4: whenever the destination `<profileId>.pdf` already exists in the
download directory, `renameDownloadedPdf` takes the collision branch
(lines 230-238): the selected artifact is renamed to the
timestamp-suffixed name, that name differs from the destination name, and
every entry named `<profileId>.pdf` survives (unchanged, or — only when it
is itself the selected artifact — carried over under the suffixed name);
the existing destination is never overwritten. -/
theorem rename_never_overwrites (profileId : JsString) (files : List FileEntry)
    (now : Nat)
    (hdest : ∃ e ∈ files, e.name = profileId ++ (".pdf").data) :
    ∃ recent, mostRecent files = some recent ∧
      renameDownloadedPdf profileId files now =
        (true, renameFile files recent.name (tsName profileId now)) ∧
      tsName profileId now ≠ profileId ++ (".pdf").data ∧
      ∀ e ∈ files, e.name = profileId ++ (".pdf").data →
        e ∈ renameFile files recent.name (tsName profileId now) ∨
        { e with name := tsName profileId now } ∈
          renameFile files recent.name (tsName profileId now) := by
  obtain ⟨e0, he0, hn0⟩ := hdest
  have hq0 : qualifies e0 = true := by
    have : e0 = { name := profileId ++ (".pdf").data, mtime := e0.mtime } := by
      cases e0
      simp_all
    rw [this]
    exact qualifies_dest profileId e0.mtime
  have hfilter : files.filter qualifies ≠ [] :=
    List.ne_nil_of_mem (List.mem_filter.mpr ⟨he0, hq0⟩)
  obtain ⟨recent, hrec, _, _⟩ := mostRecent_spec files hfilter
  have hts : tsName profileId now ≠ profileId ++ (".pdf").data := by
    intro heq
    have := congrArg List.length heq
    simp [tsName, List.length_append] at this
  have hany : files.any (fun f => decide (f.name = profileId ++ (".pdf").data)) = true :=
    List.any_eq_true.mpr ⟨e0, he0, by simp [hn0]⟩
  refine ⟨recent, hrec, ?_, hts, ?_⟩
  · rw [renameDownloadedPdf, hrec]
    simp only [hany, if_true]
  · intro e he hne
    rw [renameFile]
    split
    · exact Or.inl he
    · have hefil : e ∈ files.filter (fun f => decide (f.name ≠ tsName profileId now)) := by
        refine List.mem_filter.mpr ⟨he, ?_⟩
        rw [hne]
        exact decide_eq_true (Ne.symm hts)
      by_cases hcase : e.name = recent.name
      · right
        refine List.mem_map.mpr ⟨e, hefil, ?_⟩
        simp [hcase]
      · left
        refine List.mem_map.mpr ⟨e, hefil, ?_⟩
        simp [hcase]

/-- C4 witness: `jane.pdf` already exists when a fresh `Profile.pdf` is
claimed for profile `jane`. -/
theorem rename_never_overwrites_witness :
    ∃ recent, mostRecent demoCollisionDir = some recent ∧
      renameDownloadedPdf ("jane".data) demoCollisionDir 555 =
        (true, renameFile demoCollisionDir recent.name (tsName ("jane".data) 555)) ∧
      tsName ("jane".data) 555 ≠ ("jane".data) ++ (".pdf").data ∧
      ∀ e ∈ demoCollisionDir, e.name = ("jane".data) ++ (".pdf").data →
        e ∈ renameFile demoCollisionDir recent.name (tsName ("jane".data) 555) ∨
        { e with name := tsName ("jane".data) 555 } ∈
          renameFile demoCollisionDir recent.name (tsName ("jane".data) 555) :=
  rename_never_overwrites ("jane".data) demoCollisionDir 555 (by decide)

/-- C2: the orchestrator loop produces exactly one outcome per non-blank
input line for every target list and every environment; a non-blank,
resolvable target always contributes exactly its own entry and the loop
then continues with the rest; and any exception raised by the loop body
(`targetBody` returning `Except.error`) is absorbed by the outer catch into
a `failedTrigger` outcome, never propagated. -/
theorem per_target_isolation (urls : List JsString) (envs : Nat → TargetEnv) (i : Nat) :
    (processProfilesGo envs urls i).length =
      (urls.filter (fun u => !(jsTrim u).isEmpty)).length ∧
    (∀ u rest j pid, jsTrim u ≠ [] → extractProfileId (jsTrim u) = some pid →
      processProfilesGo envs (u :: rest) j =
        processTarget pid (envs j) :: processProfilesGo envs rest (j + 1)) ∧
    (∀ pid env e, targetBody pid env = Except.error e →
      processTarget pid env = Outcome.failedTrigger) := by
  refine ⟨?_, ?_, ?_⟩
  · induction urls generalizing i with
    | nil => rfl
    | cons u rest ih =>
      by_cases hu : jsTrim u = []
      · simp [processProfilesGo, hu, List.filter_cons, ih]
      · cases hpid : extractProfileId (jsTrim u) with
        | none => simp [processProfilesGo, hu, hpid, List.filter_cons, ih]
        | some pid => simp [processProfilesGo, hu, hpid, List.filter_cons, ih]
  · intro u rest j pid hu hpid
    simp [processProfilesGo, hu, hpid]
  · intro pid env e hbody
    rw [processTarget, hbody]

/-- C2 witness: a list with a blank line and a malformed line yields one
outcome per non-blank line; the well-formed head is processed and the loop
continues; a navigation rejection is absorbed as `failedTrigger`. -/
theorem per_target_isolation_witness :
    (processProfilesGo demoEnvs demoUrls 0).length =
      (demoUrls.filter (fun u => !(jsTrim u).isEmpty)).length ∧
    processProfilesGo demoEnvs (("https://www.linkedin.com/in/jane/").data :: [("nourl").data]) 0 =
      processTarget (("jane").data) (demoEnvs 0) ::
        processProfilesGo demoEnvs [("nourl").data] 1 ∧
    processTarget (("jane").data) demoBadEnv = Outcome.failedTrigger := by
  obtain ⟨h1, h2, h3⟩ := per_target_isolation demoUrls demoEnvs 0
  exact ⟨h1,
    h2 (("https://www.linkedin.com/in/jane/").data) [("nourl").data] 0 (("jane").data)
      (by decide) (by decide),
    h3 (("jane").data) demoBadEnv JsError.error (by rfl)⟩

/-- C8: `waitForDownload` polls the directory at 500 ms intervals until the
timeout; if no qualifying artifact ever appears it returns `none` rather
than throwing; in the orchestrator the target's outcome is recorded as
`failedDownloadTimeout` and the loop continues with the remaining
targets. -/
theorem download_timeout_skips_target (snapshot : Nat → List FileEntry) (timeout : Nat)
    (pid : JsString) (env : TargetEnv) (u : JsString) (rest : List JsString)
    (envs : Nat → TargetEnv) (i n : Nat)
    (hempty : ∀ t, (snapshot t).filter qualifies = [])
    (hnav : env.navOk = true) (hover : env.overflowCount = some n) (hn : 2 ≤ n)
    (hmore : env.moreClickOk = true) (hpdf : env.primaryPdfFound = true)
    (hclick : env.primaryClickOk = true) (hsnap : env.primarySnapshots = snapshot)
    (henv : envs i = env) (hu : jsTrim u ≠ [])
    (hpid : extractProfileId (jsTrim u) = some pid) :
    waitForDownload snapshot timeout = none ∧
    processTarget pid env = Outcome.failedDownloadTimeout ∧
    processProfilesGo envs (u :: rest) i =
      Outcome.failedDownloadTimeout :: processProfilesGo envs rest (i + 1) := by
  have hwait := waitLoop_none snapshot hempty
  have h1 : waitForDownload snapshot timeout = none := hwait _ _
  have h30 : waitForDownload snapshot 30000 = none := hwait _ _
  have hlt : ¬ n < 2 := by omega
  have h2 : processTarget pid env = Outcome.failedDownloadTimeout := by
    rw [processTarget, targetBody]
    simp only [hnav, Bool.not_true, Bool.false_eq_true, if_false, hover, hlt, if_neg,
      Bool.not_eq_true]
    rw [triggerAndResolve]
    simp only [hmore, hpdf, hclick, Bool.and_self, if_true, hsnap, h30]
  refine ⟨h1, h2, ?_⟩
  simp [processProfilesGo, hu, hpid, henv, h2]

/-- C8 witness: a directory that stays empty for the whole wait. -/
theorem download_timeout_skips_target_witness :
    waitForDownload (fun _ => []) 30000 = none ∧
    processTarget (("jane").data) demoTimeoutEnv = Outcome.failedDownloadTimeout ∧
    processProfilesGo (fun _ => demoTimeoutEnv)
        (("https://www.linkedin.com/in/jane/").data :: [("https://www.linkedin.com/in/bob/").data]) 0 =
      Outcome.failedDownloadTimeout ::
        processProfilesGo (fun _ => demoTimeoutEnv) [("https://www.linkedin.com/in/bob/").data] 1 :=
  download_timeout_skips_target (fun _ => []) 30000 (("jane").data) demoTimeoutEnv
    (("https://www.linkedin.com/in/jane/").data) [("https://www.linkedin.com/in/bob/").data]
    (fun _ => demoTimeoutEnv) 0 2
    (fun _ => rfl) rfl rfl (by decide) rfl rfl rfl rfl rfl (by decide) (by decide)

/-- C1 (code bug): when the session store is absent or corrupt,
`loadCookies` rethrows, the catch of `loginWithSavedCookies` swallows the
exception and returns `undefined`, and `main` treats the falsy result as a
failed login: the run aborts without ever attempting the interactive
credential login, contrary to the specified fallback. -/
theorem absent_store_never_credential_login (env : RunEnv) (e : LoadError)
    (hstore : env.cookieStore = Except.error e) :
    loginWithSavedCookies env = { result := none, credentialLoginAttempted := false } ∧
    (env.driverOk = true →
      (main env).outcomes = none ∧ (main env).quitCalled = true ∧
      (main env).credentialLoginAttempted = false) := by
  have hl : loginWithSavedCookies env =
      { result := none, credentialLoginAttempted := false } := by
    rw [loginWithSavedCookies, loadCookies, hstore]
  refine ⟨hl, fun hd => ?_⟩
  rw [main]
  simp [hd, hl]

/-- C1 witness: a first run, where the cookie store file does not exist. -/
theorem absent_store_never_credential_login_witness :
    loginWithSavedCookies demoAbsentStoreEnv =
      { result := none, credentialLoginAttempted := false } ∧
    (main demoAbsentStoreEnv).outcomes = none ∧
    (main demoAbsentStoreEnv).quitCalled = true ∧
    (main demoAbsentStoreEnv).credentialLoginAttempted = false :=
  ⟨(absent_store_never_credential_login demoAbsentStoreEnv LoadError.notFound rfl).1,
   (absent_store_never_credential_login demoAbsentStoreEnv LoadError.notFound rfl).2 rfl⟩

/-- C3 counterexample: with both credential values absent from the process
environment, the program still creates a browser session and still
processes a target — there is no precondition check. -/
theorem missing_credentials_browser_still_opened :
    demoNoCredEnv.email = none ∧ demoNoCredEnv.password = none ∧
    (main demoNoCredEnv).browserCreated = true ∧
    (main demoNoCredEnv).outcomes = some [Outcome.skippedNoActionElement] := by
  refine ⟨rfl, rfl, ?_, ?_⟩ <;> rfl

/-- C3 (amended): the two credential values are read from the process
environment but never checked; a browser session is created regardless,
and missing credentials surface only as a failure of the interactive
credential login, if one is ever attempted. -/
theorem missing_credentials_not_checked (env : RunEnv)
    (h : env.email = none ∨ env.password = none) (hd : env.driverOk = true) :
    (main env).browserCreated = true ∧ loginToLinkedIn env = false := by
  constructor
  · rw [main]
    simp only [hd, Bool.not_true, Bool.false_eq_true, if_false]
    split <;> rfl
  · rcases h with h | h <;> cases he : env.loginElementsFound <;>
      simp [loginToLinkedIn, he, h]

/-- C3 amended-claim witness. -/
theorem missing_credentials_not_checked_witness :
    (main demoNoCredEnv).browserCreated = true ∧
    loginToLinkedIn demoNoCredEnv = false :=
  missing_credentials_not_checked demoNoCredEnv (Or.inl rfl) rfl

/-- C9: on every execution path on which a browser session was successfully
created — login success or failure, with or without target processing —
`driver.quit()` is invoked before the process terminates. -/
theorem browser_always_quit (env : RunEnv) (h : env.driverOk = true) :
    (main env).quitCalled = true := by
  rw [main]
  simp only [h, Bool.not_true, Bool.false_eq_true, if_false]
  split <;> rfl

/-- C9 witness: a run that authenticates and processes its targets. -/
theorem browser_always_quit_witness : (main demoNoCredEnv).quitCalled = true :=
  browser_always_quit demoNoCredEnv rfl

/-- C10: if the target-list file cannot be read or is empty,
`getProfileURLs` returns an empty list without throwing, and the run then
completes normally — zero targets processed, browser closed. -/
theorem empty_or_unreadable_input_completes (env : RunEnv)
    (hfile : env.fileContent = none ∨ env.fileContent = some [])
    (hd : env.driverOk = true)
    (hlogin : (loginWithSavedCookies env).result = some true) :
    getProfileURLs env.fileContent = [] ∧
    (main env).outcomes = some [] ∧ (main env).quitCalled = true := by
  have hurls : getProfileURLs env.fileContent = [] := by
    rcases hfile with h | h <;> rw [h] <;> rfl
  refine ⟨hurls, ?_, ?_⟩ <;> rw [main] <;>
    simp [hd, hlogin, hurls, proccessProfiles, processProfilesGo]

/-- C10 witness: an empty `profiles.csv`. -/
theorem empty_or_unreadable_input_completes_witness :
    getProfileURLs demoEmptyInputEnv.fileContent = [] ∧
    (main demoEmptyInputEnv).outcomes = some [] ∧
    (main demoEmptyInputEnv).quitCalled = true :=
  empty_or_unreadable_input_completes demoEmptyInputEnv (Or.inr rfl) rfl rfl

end Scraper
